import Mathlib

/-!
Verification development for the conan multi-architecture build hook
(`conan-multi-build.py`).  The Python module is shallowly embedded:

* the filesystem is an explicit finite structure (`FS`) of files, directories
  and (dangling) symlinks, with paths as component lists;
* stateful functions become state-passing Lean functions;
* Python exceptions become explicit result types (`PyErr`, `GRes`);
* the recursive tree merger `graft_tree` takes a fuel argument, with a
  dedicated `PyErr.fuel` outcome that is propagated (never swallowed), so a
  run that returns `ok`/`shutilError` is a faithful trace of the Python code.
-/

set_option autoImplicit false

deriving instance DecidableEq for Except

namespace ConanMultiBuild

/-- A filesystem path, as its list of components (`os.path.sep`-separated). -/
abbrev Path := List String

/-- Python `str(x)` for an optional string value: `str(None) = "None"`. -/
def pyStrOpt : Option String → String
  | none => "None"
  | some s => s

/-- Python `s.split(';')`: splits on every `';'`; the empty string yields
`[""]`, matching `"".split(';') == ['']`. -/
def pySplitSemicolon (s : String) : List String :=
  let f : Char → List (List Char) → List (List Char) := fun ch acc =>
    match acc with
    | cur :: rest => if ch = ';' then [] :: cur :: rest else (ch :: cur) :: rest
    | [] => [[ch]]
  (s.toList.foldr f [[]]).map (fun cs => String.mk cs)

/-- Python `os.path.splitext(p)[1]` restricted to a basename: the extension
including the dot, where leading dots of the basename never start an
extension (`splitext(".bashrc") = (".bashrc", "")`). -/
def splitextExt (base : String) : String :=
  let rev := base.toList.reverse
  let extRev := rev.takeWhile (fun c => c ≠ '.')
  match rev.dropWhile (fun c => c ≠ '.') with
  | [] => ""
  | _ :: before =>
    if before.any (fun c => c ≠ '.') then String.mk ('.' :: extRev.reverse) else ""

/-- Render a path the way Python prints it inside error tuples. -/
def pathStr (p : Path) : String := String.intercalate "/" p

/-- Arch subfolder constant (`_arch_folder = 'conan_archs'`). -/
def arch_folder : String := "conan_archs"

/-- `_binary_exts`: extensions classified as binary without reading. -/
def binary_exts : List String := [".a", ".dylib"]

/-- `_regular_exts`: extensions classified as plain without reading. -/
def regular_exts : List String :=
  [".h", ".hpp", ".hxx", ".c", ".cc", ".cxx", ".cpp", ".m", ".mm", ".txt",
   ".md", ".html", ".jpg", ".png"]

/-- Mach-O thin magic `b'\xcf\xfa\xed\xfe'`. -/
def magicThin : List Nat := [0xcf, 0xfa, 0xed, 0xfe]

/-- Mach-O fat magic `b'\xca\xfe\xba\xbe'`. -/
def magicFat : List Nat := [0xca, 0xfe, 0xba, 0xbe]

/-- Static archive signature `b'!<arch>\n'` — note this literal is 8 bytes
long, while the code only ever reads 4 bytes of header. -/
def magicAr : List Nat := [0x21, 0x3c, 0x61, 0x72, 0x63, 0x68, 0x3e, 0x0a]

/-- The filesystem: finite maps (as association lists) of regular files to
their byte contents, a list of existing directories, and symlinks (modelled
as unresolved/dangling: `os.path.isfile`/`exists` do not see them, matching
Python's behavior on dangling links). -/
structure FS where
  files : List (Path × List Nat)
  dirs : List Path
  links : List (Path × String)
deriving DecidableEq, Inhabited

/-- `os.path.isfile` (symlinks modelled as dangling, hence not files). -/
def FS.isfile (fs : FS) (p : Path) : Bool := (fs.files.lookup p).isSome

/-- `os.path.isdir`. -/
def FS.isdir (fs : FS) (p : Path) : Bool := fs.dirs.contains p

/-- `os.path.islink`. -/
def FS.islink (fs : FS) (p : Path) : Bool := (fs.links.lookup p).isSome

/-- `os.path.exists`: true for files and directories; a dangling symlink
does not exist for Python's `os.path.exists`. -/
def FS.pexists (fs : FS) (p : Path) : Bool := fs.isfile p || fs.isdir p

/-- `os.readlink`. -/
def FS.readlink (fs : FS) (p : Path) : String := (fs.links.lookup p).getD ""

/-- `os.symlink(target, p)`. -/
def FS.addLink (fs : FS) (p : Path) (target : String) : FS :=
  { fs with links := fs.links ++ [(p, target)] }

/-- Create/overwrite the regular file at `p` with content `c` (the content
and metadata effect of `shutil.copy2` / of the external tool writing `p`). -/
def FS.setFile (fs : FS) (p : Path) (c : List Nat) : FS :=
  { fs with files := (p, c) :: fs.files }

/-- `os.makedirs(p)`: creates `p` together with any missing ancestors. -/
def FS.makedirs (fs : FS) (p : Path) : FS :=
  { fs with dirs := fs.dirs ++ (p.inits.filter (fun q => !q.isEmpty && !(fs.isdir q))) }

/-- Delete the whole subtree rooted at `p` (`shutil.rmtree(p)`). -/
def FS.rmtree (fs : FS) (p : Path) : FS :=
  { files := fs.files.filter (fun e => !(p.isPrefixOf e.1)),
    dirs := fs.dirs.filter (fun q => !(p.isPrefixOf q)),
    links := fs.links.filter (fun e => !(p.isPrefixOf e.1)) }

/-- Keep the first occurrence of each name, dropping later duplicates. -/
def dedupFirst (l : List String) : List String :=
  l.foldl (fun acc a => if a ∈ acc then acc else acc ++ [a]) []

/-- `os.listdir(p)`: the names of the immediate children of `p`.  The order
is the (deterministic) order of the model's directory and file lists;
`os.listdir`'s order is unspecified, and no claim depends on it. -/
def FS.listdir (fs : FS) (p : Path) : List String :=
  let allPaths := fs.dirs ++ fs.files.map Prod.fst ++ fs.links.map Prod.fst
  dedupFirst (allPaths.filterMap (fun q =>
    if q.length = p.length + 1 && p.isPrefixOf q then q.getLast? else none))

/-- `is_macho_binary(filename)`.  Extension in `_binary_exts` → binary,
in `_regular_exts` → plain, otherwise the file is opened and 4 bytes of
header are read and compared against the three magic byte strings — exactly
as in the source, including the comparison of the 4-byte header with the
8-byte `b'!<arch>\n'` literal.  `bad` is the set of paths whose `open`/
`read` raises `OSError`; opening a nonexistent path also raises. -/
def is_macho_binary (fs : FS) (bad : List Path) (filename : Path) : Except String Bool :=
  let ext := splitextExt (filename.getLastD "")
  if ext ∈ binary_exts then .ok true
  else if ext ∈ regular_exts then .ok false
  else
    match fs.files.lookup filename with
    | none => .error "open failed"
    | some content =>
      if filename ∈ bad then .error "read failed"
      else
        let header := content.take 4
        if header = magicThin then .ok true
        else if header = magicFat then .ok true
        else if header = magicAr then .ok true
        else .ok false

/-- One element of the list carried by a `shutil.Error`.  Because of the
`errors.extend((src, dst, str(why)))` call in `graft_tree` (a tuple handed
to `extend`), the list can also contain bare strings, not only
`(src, dst, reason)` triples. -/
inductive ErrItem where
  | entry (src dst : Path) (reason : String)
  | stray (s : String)
deriving DecidableEq

/-- A Python exception as observed by this module.  `shutil.Error` is a
subclass of `OSError`, which matters for `graft_tree`'s handlers; `fuel` is
the model artifact for running out of recursion fuel. -/
inductive PyErr where
  | osError (msg : String)
  | shutilError (entries : List ErrItem)
  | typeError (msg : String)
  | fuel
deriving DecidableEq

/-- `str(item)` for an error-list item. -/
def strOfErrItem : ErrItem → String
  | .entry s d r => "(" ++ pathStr s ++ ", " ++ pathStr d ++ ", " ++ r ++ ")"
  | .stray s => s

/-- `str(exc)` for an exception (a fixed deterministic rendering). -/
def strOfPyErr : PyErr → String
  | .osError m => m
  | .shutilError es => String.intercalate ", " (es.map strOfErrItem)
  | .typeError m => m
  | .fuel => "fuel"

/-- Merge-time state: the filesystem plus the log of invocations of the
external architecture-combining tool (`lipo`), each recorded as
(output path, input paths). -/
structure MSt where
  fs : FS
  lipoCalls : List (Path × List Path)
deriving DecidableEq, Inhabited

/-- The content the external tool writes: a fat binary assembled from all
the inputs (modelled as their concatenation; no claim depends on it). -/
def lipoContent (fs : FS) (inputs : List Path) : List Nat :=
  (inputs.map (fun p => (fs.files.lookup p).getD [])).flatten

/-- `shutil.copy2(src, dst)` as a per-file merge function: copies content
(and metadata), raising `OSError` when `src` is unreadable. -/
def default_copy2 (bad : List Path) (st : MSt) (src dst : Path) : MSt × Option String :=
  if src ∈ bad then (st, some "copy failed")
  else
    match st.fs.files.lookup src with
    | some c => ({ st with fs := st.fs.setFile dst c }, none)
    | none => (st, some "copy failed: no such file")

/-- `copy_arch_file(conanfile, src, dst, top, archs)`.  If `src` is a
regular file and `top`/`archs` are truthy and the file classifies as a
Mach-O binary and `src` lies under `top`, the per-architecture sibling
paths `top/<arch_dir>/<arch>/<subpath>` are collected; if more than one
exists, `lipo` is invoked once with all of them and output `dst`.
Otherwise the tail runs: an existing `dst` is never overwritten, else the
file is copied verbatim.  An `is_macho_binary` failure propagates as the
raised `OSError` (second component `some msg`). -/
def copy_arch_file (bad : List Path) (archs : List String) (top : Option Path)
    (st : MSt) (src dst : Path) : MSt × Option String :=
  if st.fs.isfile src then
    let lipoTry : Option (MSt × Option String) :=
      match top with
      | none => none
      | some t =>
        if !t.isEmpty && !archs.isEmpty then
          match is_macho_binary st.fs bad src with
          | .error msg => some (st, some msg)
          | .ok false => none
          | .ok true =>
            if t.isPrefixOf src then
              match src.drop t.length with
              | [] => some (st, some "IndexError")
              | arch_dir :: rest =>
                let subpath := rest.drop 1
                let arch_paths := (archs.map (fun a => t ++ [arch_dir, a] ++ subpath)).filter
                  (fun p => st.fs.isfile p)
                if 1 < arch_paths.length then
                  some ({ st with
                            fs := st.fs.setFile dst (lipoContent st.fs arch_paths),
                            lipoCalls := st.lipoCalls ++ [(dst, arch_paths)] }, none)
                else none
            else none
        else none
    match lipoTry with
    | some r => r
    | none =>
      if st.fs.pexists dst then (st, none)
      else if src ∈ bad then (st, some "copy failed")
      else
        match st.fs.files.lookup src with
        | some c => ({ st with fs := st.fs.setFile dst c }, none)
        | none => (st, some "copy failed: no such file")
  else (st, none)

/-- Result of a `graft_tree` call: normal return, or a raised exception.
The state is carried along a raised exception because the Python function's
filesystem effects persist when it raises. -/
inductive GRes where
  | ok (st : MSt)
  | err (st : MSt) (e : PyErr)
deriving DecidableEq

/-- Accumulator for `graft_tree`'s entry loop: the collected `(src, dst,
reason)` error items so far, or an exception that escapes the per-entry
`try` (only `fuel` and non-`OSError` exceptions do). -/
inductive ERes where
  | done (st : MSt) (errors : List ErrItem)
  | raised (st : MSt) (e : PyErr)
deriving DecidableEq

/-- `graft_tree(src, dst, symlinks, copy_function, dirs_exist_ok)`: the
modified `copytree` that copies new entries into an existing tree.  For
each name in `listdir(src)`: an already-existing destination entry is
skipped (`if os.path.exists(dstname): continue`); otherwise symlinks are
recreated, directories recursed into, and files run through
`copy_function`.  A raised `OSError` is collected as one
`(srcname, dstname, str(why))` item — and since `shutil.Error` is itself a
subclass of `OSError`, an aggregate error raised by a recursive call is
caught by that same handler and collected as a single stringified item (the
later `except Error` clause of the source is unreachable).  After the loop
`copystat(src, dst)` runs, whose `OSError` is fed to `errors.extend` as a
tuple (adding three bare strings).  If any errors were collected, a single
`shutil.Error` with all of them is raised. -/
def graft_tree (bad : List Path) (copyFn : MSt → Path → Path → MSt × Option String)
    (symlinks dirs_exist_ok : Bool) : Nat → MSt → Path → Path → GRes
  | 0, st, _, _ => .err st .fuel
  | fuel + 1, st, src, dst =>
    if !(st.fs.isdir src) then .err st (.osError "NotADirectoryError")
    else if st.fs.pexists dst && !dirs_exist_ok then .err st (.osError "FileExistsError")
    else
      let names := st.fs.listdir src
      let st1 : MSt := { st with fs := st.fs.makedirs dst }
      let step : ERes → String → ERes := fun acc name =>
        match acc with
        | .raised st2 e => .raised st2 e
        | .done stAcc errs =>
          let srcname := src ++ [name]
          let dstname := dst ++ [name]
          if stAcc.fs.pexists dstname then .done stAcc errs
          else if symlinks && stAcc.fs.islink srcname then
            .done { stAcc with fs := stAcc.fs.addLink dstname (stAcc.fs.readlink srcname) } errs
          else if stAcc.fs.isdir srcname then
            match graft_tree bad copyFn symlinks dirs_exist_ok fuel stAcc srcname dstname with
            | .ok st2 => .done st2 errs
            | .err st2 (.osError m) =>
              .done st2 (errs ++ [.entry srcname dstname (strOfPyErr (.osError m))])
            | .err st2 (.shutilError es) =>
              .done st2 (errs ++ [.entry srcname dstname (strOfPyErr (.shutilError es))])
            | .err st2 e => .raised st2 e
          else
            match copyFn stAcc srcname dstname with
            | (st2, none) => .done st2 errs
            | (st2, some m) => .done st2 (errs ++ [.entry srcname dstname m])
      match names.foldl step (.done st1 []) with
      | .raised st2 e => .err st2 e
      | .done st2 errs =>
        let errs2 := if src ∈ bad
          then errs ++ [.stray (pathStr src), .stray (pathStr dst), .stray "copystat failed"]
          else errs
        if errs2.isEmpty then .ok st2 else .err st2 (.shutilError errs2)

/-- The architecture-relevant per-context settings.  `fat_arch` is a
three-state field mirroring a Conan sub-setting: `none` = the attribute is
absent (accessing it raises), `some none` = it is set to Python `None`,
`some (some s)` = it holds the string `s`. -/
structure SettingsV where
  arch : String
  fat_arch : Option (Option String)
deriving DecidableEq, Inhabited

/-- Default used with `List.getD` on the settings store; theorems only ever
address valid references. -/
def defaultSettings : SettingsV := ⟨"", none⟩

/-- A build context (`conanfile`): settings live in a shared store
(`World.store`) and are addressed by reference, so that the aliasing
behavior of `copy.copy` versus `settings.copy()` is observable. -/
structure Ctx where
  settingsRef : Nat
  build_folder : Path
  install_folder : Path
  package_folder : Path
  display_name : String
deriving DecidableEq, Inhabited

/-- A record of one invocation of an original (pre-orchestration) step
implementation: the arch tag of the driving clone and the working
directory the step ran in (`none` for the pass-through case, which neither
tags nor changes directory). -/
structure StepCall where
  archTag : Option String
  cwd : Option Path
deriving DecidableEq, Inhabited

/-- The global mutable state: filesystem, the settings store (heap), and
the logs of original-step invocations and `lipo` runs. -/
structure World where
  fs : FS
  store : List SettingsV
  buildCalls : List StepCall
  packageCalls : List StepCall
  lipoCalls : List (Path × List Path)
deriving DecidableEq, Inhabited

/-- Update the settings value at reference `i`. -/
def World.storeSet (w : World) (i : Nat) (f : SettingsV → SettingsV) : World :=
  { w with store := w.store.set i (f (w.store.getD i defaultSettings)) }

/-- `get_archs(conanfile)`: `str(settings.os.fat_arch).split(';')`.  When
the `fat_arch` attribute is absent the `except AttributeError` clause
executes a bare `return`, producing Python `None` (modelled as `none`); the
final `return [conanfile.settings.arch]` of the source is unreachable. -/
def get_archs (fat_arch : Option (Option String)) : Option (List String) :=
  match fat_arch with
  | none => none
  | some v => some (pySplitSemicolon (pyStrOpt v))

/-- `conanfile_copy(conanfile)`: `copy.copy` plus an explicit
`settings.copy()` (a fresh store cell holding the same value) and deep
copies of the folder fields.  `_build1`/`_package1`/`_test1` are rebound to
the class's original implementations, so clones always invoke the real
(pre-orchestration) steps. -/
def conanfile_copy (w : World) (c : Ctx) : World × Ctx :=
  let s := w.store.getD c.settingsRef defaultSettings
  ({ w with store := w.store ++ [s] }, { c with settingsRef := w.store.length })

/-- `shutil.copytree(build_folder, target, symlinks=True, ignore=ignore_archs)`:
copies the whole tree below `src` to `dst`, except that the top-level
`conan_archs` subfolder is excluded by the `ignore_archs` callback. -/
def copytree_ignore_archs (fs : FS) (src dst : Path) : FS :=
  let keep : Path → Bool := fun p => src.isPrefixOf p && !((src ++ [arch_folder]).isPrefixOf p)
  { files := fs.files ++ (fs.files.filter (fun e => keep e.1)).map
      (fun e => (dst ++ e.1.drop src.length, e.2)),
    dirs := fs.dirs ++ [dst] ++ (fs.dirs.filter keep).map (fun p => dst ++ p.drop src.length),
    links := fs.links ++ (fs.links.filter (fun e => keep e.1)).map
      (fun e => (dst ++ e.1.drop src.length, e.2)) }

/-- The body of `multi_build`'s per-architecture loop: clone the original
context, retag its display name, set `arch` and null out `fat_arch` on the
clone's own settings copy, point its folders into the scratch subtree,
stage the build tree with `copytree` (ignoring prior arch scratch), then
`chdir` into the scratch dir and invoke the clone's `_build1` (the original
build step, whose filesystem effect is the opaque `step`). -/
def multi_build_body (step : FS → FS) (c0 : Ctx) (bf pf : Path) (arch : String)
    (w : World) : World :=
  let (w1, cl) := conanfile_copy w c0
  let cl := { cl with display_name := c0.display_name ++ "[" ++ arch ++ "]" }
  let w2 := w1.storeSet cl.settingsRef (fun s => { s with arch := arch })
  let w3 := w2.storeSet cl.settingsRef (fun s => { s with fat_arch := some none })
  let cl := { cl with build_folder := bf ++ [arch_folder, arch] }
  let cl := { cl with install_folder := cl.build_folder }
  let cl := { cl with package_folder := pf ++ [arch_folder, arch] }
  let w4 := { w3 with fs := copytree_ignore_archs w3.fs bf cl.build_folder }
  { w4 with fs := step w4.fs,
            buildCalls := w4.buildCalls ++ [⟨some arch, some cl.build_folder⟩] }

/-- `for arch in archs:` of `multi_build`. -/
def multi_build_loop (step : FS → FS) (c0 : Ctx) (bf pf : Path) :
    List String → World → World
  | [], w => w
  | a :: rest, w => multi_build_loop step c0 bf pf rest (multi_build_body step c0 bf pf a w)

/-- `multi_build(self_)`: on more than one resolved architecture, run the
per-architecture loop; otherwise call `self_._build1()` directly (recorded
with no arch tag and no directory change).  `len(None)` raises
`TypeError` when `get_archs` returned `None`. -/
def multi_build (step : FS → FS) (w : World) (c : Ctx) : Except PyErr World :=
  match get_archs (w.store.getD c.settingsRef defaultSettings).fat_arch with
  | none => .error (.typeError "object of type NoneType has no len()")
  | some archs =>
    if 1 < archs.length then
      .ok (multi_build_loop step c c.build_folder c.package_folder archs w)
    else
      .ok { w with fs := step w.fs, buildCalls := w.buildCalls ++ [⟨none, none⟩] }

/-- The body of `multi_package`'s first loop: clone, retag, set `arch`,
null `fat_arch`, point folders at the scratch pair, `chdir`, rebind
`conanfile.copy` to a `FileCopier` targeting the scratch package folder,
and invoke `_package1` (the original package step, opaque effect
`pstep arch`). -/
def multi_package_body (pstep : String → FS → FS) (c0 : Ctx) (bf pf : Path)
    (arch : String) (w : World) : World :=
  let (w1, cl) := conanfile_copy w c0
  let cl := { cl with display_name := c0.display_name ++ "[" ++ arch ++ "]" }
  let w2 := w1.storeSet cl.settingsRef (fun s => { s with arch := arch })
  let w3 := w2.storeSet cl.settingsRef (fun s => { s with fat_arch := some none })
  let cl := { cl with build_folder := bf ++ [arch_folder, arch] }
  let cl := { cl with install_folder := cl.build_folder }
  let cl := { cl with package_folder := pf ++ [arch_folder, arch] }
  { w3 with fs := pstep arch w3.fs,
            packageCalls := w3.packageCalls ++ [⟨some arch, some cl.build_folder⟩] }

/-- First `for arch in archs:` loop of `multi_package`. -/
def multi_package_loop (pstep : String → FS → FS) (c0 : Ctx) (bf pf : Path) :
    List String → World → World
  | [], w => w
  | a :: rest, w =>
    multi_package_loop pstep c0 bf pf rest (multi_package_body pstep c0 bf pf a w)

/-- Second `for arch in archs:` loop of `multi_package`: graft each arch's
package scratch tree into the unified package root with
`copy_arch_file(..., top=package_folder, archs=archs)` as merge function,
`symlinks=True`, `dirs_exist_ok=True`. -/
def mergeArchTrees (bad : List Path) (fuel : Nat) (pf : Path) (archs : List String) :
    List String → MSt → GRes
  | [], m => .ok m
  | a :: rest, m =>
    match graft_tree bad (fun st s d => copy_arch_file bad archs (some pf) st s d)
        true true fuel m (pf ++ [arch_folder, a]) pf with
    | .ok m' => mergeArchTrees bad fuel pf archs rest m'
    | .err m' e => .err m' e

/-- `multi_package(self_)`: on more than one resolved architecture, run the
per-architecture packaging loop, merge all scratch trees into the package
root, then `shutil.rmtree(package_folder/conan_archs)`.  An exception in
the merge propagates; `len(None)` raises `TypeError`. -/
def multi_package (bad : List Path) (fuel : Nat) (pstep : String → FS → FS)
    (w : World) (c : Ctx) : Except PyErr World :=
  match get_archs (w.store.getD c.settingsRef defaultSettings).fat_arch with
  | none => .error (.typeError "object of type NoneType has no len()")
  | some archs =>
    if 1 < archs.length then
      let w1 := multi_package_loop pstep c c.build_folder c.package_folder archs w
      match mergeArchTrees bad fuel c.package_folder archs archs ⟨w1.fs, w1.lipoCalls⟩ with
      | .ok m =>
        .ok { w1 with fs := m.fs.rmtree (c.package_folder ++ [arch_folder]),
                      lipoCalls := m.lipoCalls }
      | .err _ e => .error e
    else
      .ok { w with fs := pstep (w.store.getD c.settingsRef defaultSettings).arch w.fs,
                   packageCalls := w.packageCalls ++ [⟨none, none⟩] }

/-- The observable state of a conanfile as `patch_conanfile` and
`supports_multi_arch` see it.  `Option` fields model attributes/settings
whose access can raise (`none` = absent, the corresponding exception is
raised and, where the source catches it, handled).  Conan's `SettingsItem`
truthiness maps setting values to `Bool`. -/
structure CFile where
  options_header_only : Option Bool
  settings_os : Option String
  settings_arch : Option String
  settings_fat_arch : Option (Option String)
  settings_multi_arch : Option Bool
  multi_arch_attr : Option Bool
  generators : List String
  settings_multi_arch_generators : Option (List String)
  generator : String
  has_own_multi_build : Bool
  has_own_multi_package : Bool
  package1 : Bool
  patchedFull : Bool
  patchedSafe : Bool
deriving DecidableEq, Inhabited

/-- `_multi_arch_generators = ['cmake']`. -/
def module_multi_arch_generators : List String := ["cmake"]

/-- `multi_arch_generators(conanfile)`: the `multi_arch_generators` setting
when present, else `['cmake']` when the resolved generator is Xcode, else
`['cmake']` with `"cmake"` filtered out (i.e. `[]`). -/
def multi_arch_generators (cf : CFile) : List String :=
  match cf.settings_multi_arch_generators with
  | some v => v
  | none =>
    if cf.generator = "Xcode" then module_multi_arch_generators
    else module_multi_arch_generators.filter (fun g => g ≠ "cmake")

/-- `supported_os(os)` = `is_apple_os(os)`: membership of `str(os)` in the
Apple OS family (`str(None) = "None"` is not a member, so an absent OS
axis is unsupported). -/
def supported_os (os : Option String) : Bool :=
  pyStrOpt os ∈ ["Macos", "iOS", "watchOS", "tvOS"]

/-- `supports_multi_arch(conanfile)`: the `multi_arch` setting if present,
else the recipe's `multi_arch` attribute if present, else true when some
generator of the recipe is in `multi_arch_generators`, else true exactly
when the recipe has both `multi_build` and `multi_package` attributes
(which also exist once the full patch has installed them). -/
def supports_multi_arch (cf : CFile) : Bool :=
  match cf.settings_multi_arch with
  | some b => b
  | none =>
    match cf.multi_arch_attr with
    | some b => b
    | none =>
      if cf.generators.any (fun g => g ∈ multi_arch_generators cf) then true
      else (cf.has_own_multi_build || cf.patchedFull)
        && (cf.has_own_multi_package || cf.patchedFull)

/-- `patch_conanfile(conanfile)`, the Multi-Arch Eligibility Gate: decline
for header-only packages, unsupported OS, absent arch axis, or at most one
resolved architecture; return early when the `_package1` marker shows the
context is already patched; otherwise install either the light
`safe_package` wrapper (when the recipe natively supports multi-arch) or
the full `multi_build`/`multi_package`/`multi_test` orchestration.  When
`get_archs` returns `None` (absent `fat_arch`), `len(get_archs(conanfile))`
raises `TypeError`. -/
def patch_conanfile (cf : CFile) : Except PyErr CFile :=
  if cf.options_header_only.getD false then .ok cf
  else if !(supported_os cf.settings_os) then .ok cf
  else if cf.settings_arch.isNone then .ok cf
  else
    match get_archs cf.settings_fat_arch with
    | none => .error (.typeError "object of type NoneType has no len()")
    | some archs =>
      if archs.length ≤ 1 then .ok cf
      else if cf.package1 then .ok cf
      else if supports_multi_arch cf then
        .ok { cf with package1 := true, patchedSafe := true }
      else
        .ok { cf with package1 := true, patchedFull := true }

/-- Normal-return state of a `GRes`, or the raised-through state. -/
def GRes.stateD (r : GRes) : MSt := match r with | .ok st => st | .err st _ => st

/-- Whether a `GRes` is a normal return. -/
def GRes.isOk (r : GRes) : Bool := match r with | .ok _ => true | .err _ _ => false

/-- The aggregate error list of a raised `shutil.Error`, else `[]`. -/
def GRes.errItems (r : GRes) : List ErrItem :=
  match r with | .err _ (.shutilError es) => es | _ => []

/-- Extract the world of a normal `Except` result (defaulting otherwise);
used to name concrete successful runs in closed statements. -/
def okWorld (r : Except PyErr World) : World :=
  match r with | .ok w => w | .error _ => default

/-- A two-architecture demo context: build root `b`, package root `p`. -/
def demoCtx : Ctx := ⟨0, ["b"], ["b"], ["p"], "pkg"⟩

/-- A demo world whose single settings cell requests `armv7;armv8`. -/
def demoWorld : World :=
  { fs := ⟨[], [["b"], ["p"]], []⟩,
    store := [⟨"x86_64", some (some "armv7;armv8")⟩],
    buildCalls := [], packageCalls := [], lipoCalls := [] }

/-- Original package step that stages `lib/libfoo.a` into every arch's
package scratch tree (`c1` for armv7, `c2` for armv8). -/
def pstepBoth (c1 c2 : List Nat) (arch : String) (fs : FS) : FS :=
  let c := if arch = "armv7" then c1 else c2
  { fs with
      dirs := fs.dirs ++ [["p", arch_folder], ["p", arch_folder, arch],
        ["p", arch_folder, arch, "lib"]],
      files := fs.files ++ [(["p", arch_folder, arch, "lib", "libfoo.a"], c)] }

/-- Original package step that stages `lib/libfoo.a` only for armv7; the
armv8 scratch tree exists but holds no such path. -/
def pstepOnlyFirst (c1 : List Nat) (arch : String) (fs : FS) : FS :=
  if arch = "armv7" then
    { fs with
        dirs := fs.dirs ++ [["p", arch_folder], ["p", arch_folder, arch],
          ["p", arch_folder, arch, "lib"]],
        files := fs.files ++ [(["p", arch_folder, arch, "lib", "libfoo.a"], c1)] }
  else
    { fs with dirs := fs.dirs ++ [["p", arch_folder], ["p", arch_folder, arch]] }

/-- C1: in a two-architecture package step where both architecture scratch
trees contain `lib/libfoo.a`, the merge invokes `lipo` exactly once, with
both per-architecture candidate paths as inputs and the unified package
path as output; when only armv7's scratch tree contains the path, the file
is copied verbatim (the merged file holds exactly `c1`) and `lipo` is never
invoked. -/
theorem fat_merge_invokes_lipo_once (c1 c2 : List Nat) :
    ((multi_package [] 8 (pstepBoth c1 c2) demoWorld demoCtx).map
        (fun w => (w.lipoCalls, w.fs.isfile ["p", "lib", "libfoo.a"]))
      = .ok ([(["p", "lib", "libfoo.a"],
               [["p", arch_folder, "armv7", "lib", "libfoo.a"],
                ["p", arch_folder, "armv8", "lib", "libfoo.a"]])], true))
    ∧ ((multi_package [] 8 (pstepOnlyFirst c1) demoWorld demoCtx).map
        (fun w => (w.lipoCalls, w.fs.files.lookup ["p", "lib", "libfoo.a"]))
      = .ok ([], some c1)) :=
  ⟨rfl, rfl⟩

/-- Source tree for the tree-merger claims: `s/sub/f` (content `c1`) and
`s/g` (content `c2`); destination root `d` exists, plus `extra` dirs. -/
def graftSrcFs (c1 c2 : List Nat) (extra : List Path) : FS :=
  ⟨[(["s", "sub", "f"], c1), (["s", "g"], c2)], [["s"], ["s", "sub"], ["d"]] ++ extra, []⟩

/-- Concrete instance of `graftSrcFs` where the destination already has a
`sub` directory. -/
def c3srcFs : FS := graftSrcFs [7] [8] [["d", "sub"]]

/-- C3 counterexample: the source entry `sub` is a directory and the
destination directory `d/sub` already exists, yet `graft_tree` does not
recurse into it — the run succeeds with the state completely unchanged, and
`d/sub/f` was never created, refuting "merging the directory's contents
even when the destination directory already exists". -/
theorem graft_tree_skips_existing_dir_counterexample :
    c3srcFs.isdir ["s", "sub"] = true ∧ c3srcFs.isfile ["s", "sub", "f"] = true
    ∧ c3srcFs.isdir ["d", "sub"] = true
    ∧ (graft_tree [] (default_copy2 []) false true 8 ⟨c3srcFs, []⟩ ["s"] ["d"]).isOk = true
    ∧ (graft_tree [] (default_copy2 []) false true 8
        ⟨c3srcFs, []⟩ ["s"] ["d"]).stateD.fs.isfile ["d", "sub", "f"] = false := by decide

/-- C3 amended: the Tree Merger recurses into a source directory entry only
when the corresponding destination directory does not exist yet, creating
it and merging its contents; a source entry (directory as much as file)
whose destination already exists is skipped whole, while sibling entries
with absent destinations are still processed. -/
theorem graft_tree_recurse_only_into_absent_dirs (c1 c2 : List Nat) :
    (let r := graft_tree [] (default_copy2 []) false true 8
        ⟨graftSrcFs c1 c2 [], []⟩ ["s"] ["d"]
     r.isOk = true ∧ r.stateD.fs.isdir ["d", "sub"] = true
       ∧ r.stateD.fs.files.lookup ["d", "sub", "f"] = some c1
       ∧ r.stateD.fs.files.lookup ["d", "g"] = some c2)
    ∧ (let r := graft_tree [] (default_copy2 []) false true 8
        ⟨graftSrcFs c1 c2 [["d", "sub"]], []⟩ ["s"] ["d"]
       r.isOk = true ∧ r.stateD.fs.files.lookup ["d", "sub", "f"] = none
         ∧ r.stateD.fs.files.lookup ["d", "g"] = some c2) :=
  ⟨⟨rfl, rfl, rfl, rfl⟩, ⟨rfl, rfl, rfl⟩⟩

/-- A file named `payload` (no recognized extension) whose content is
exactly the static-archive signature `!<arch>\n`. -/
def c4fs : FS := ⟨[(["payload"], magicAr)], [[]], []⟩

/-- C4: a file with unrecognized extension whose content begins with the
static-archive signature `"!<arch>\n"` is classified PLAIN by the code:
`f.read(4)` yields a 4-byte header that can never equal the 8-byte
`b'!<arch>\n'` literal, so the `# ar archive` branch is unreachable.  The
claim (and the code's own comment) say such a file is binary. -/
theorem ar_archive_signature_classified_plain :
    splitextExt "payload" = "" ∧ c4fs.files.lookup ["payload"] = some magicAr
    ∧ magicAr.take 4 ≠ magicAr
    ∧ is_macho_binary c4fs [] ["payload"] = .ok false := by decide

/-- Source tree for the error-aggregation claim: `s/sub/f` fails to copy,
`s/g` is fine. -/
def c5srcFs : FS := ⟨[(["s", "sub", "f"], [1]), (["s", "g"], [2])], [["s"], ["s", "sub"]], []⟩

/-- The failure injection for C5: copying `s/sub/f` raises `OSError`. -/
def c5bad : List Path := [["s", "sub", "f"]]

/-- The C5 run: a graft with default copy function over `c5srcFs`. -/
def c5res : GRes :=
  graft_tree c5bad (default_copy2 c5bad) false false 8 ⟨c5srcFs, []⟩ ["s"] ["d"]

/-- C5: the merge does continue past the failing file (`s/g` is still
copied) and one aggregate error is raised at the end — but the entry
collected inside the recursive sub-merge does NOT appear in the aggregate:
because `shutil.Error` is a subclass of `OSError`, the sub-merge's
aggregate is caught by the `except OSError` handler and recorded as a
single stringified `(s/sub, d/sub, str(Error))` item, and the dedicated
`except Error` flattening clause of the source is unreachable. -/
theorem graft_tree_nested_errors_stringified :
    c5res.isOk = false
    ∧ c5res.stateD.fs.isfile ["d", "g"] = true
    ∧ c5res.errItems = [.entry ["s", "sub"] ["d", "sub"]
        (strOfPyErr (.shutilError [.entry ["s", "sub", "f"] ["d", "sub", "f"] "copy failed"]))]
    ∧ (ErrItem.entry ["s", "sub", "f"] ["d", "sub", "f"] "copy failed") ∉ c5res.errItems := by
  decide

/-- A conanfile on a supported OS with an arch axis but no `fat_arch`
sub-setting. -/
def c6cf : CFile :=
  { options_header_only := some false, settings_os := some "Macos",
    settings_arch := some "x86_64", settings_fat_arch := none,
    settings_multi_arch := none, multi_arch_attr := none, generators := [],
    settings_multi_arch_generators := none, generator := "Unix Makefiles",
    has_own_multi_build := false, has_own_multi_package := false,
    package1 := false, patchedFull := false, patchedSafe := false }

/-- C6: when the `fat_arch` field is absent, `get_archs` returns `None`
(its `except AttributeError` clause is a bare `return`; the
single-architecture `return [conanfile.settings.arch]` is dead code), so
`patch_conanfile` raises `TypeError` at `len(get_archs(conanfile))` instead
of degrading to a no-op — refuting "no error raised".  The other half of
the claim does hold: with no architecture axis at all, the gate returns
untouched with no error. -/
theorem missing_fat_arch_raises_type_error :
    get_archs c6cf.settings_fat_arch = none
    ∧ patch_conanfile c6cf = .error (.typeError "object of type NoneType has no len()")
    ∧ patch_conanfile { c6cf with settings_arch := none }
      = .ok { c6cf with settings_arch := none } := by decide

/-- A filesystem holding an unreadable 4-byte file named `blob`. -/
def c9fs : FS := ⟨[(["blob"], [1, 2, 3, 4])], [[]], []⟩

/-- C9 counterexample: for a file with unrecognized extension that cannot
be read, `is_macho_binary` raises the `OSError` (there is no exception
handler in the function), rather than returning plain. -/
theorem classifier_raises_on_unreadable :
    is_macho_binary c9fs [["blob"]] ["blob"] = .error "read failed" := by decide

/-- C10: when `src` is not an existing regular file (directory, dangling
symlink, special file, or nonexistent), `copy_arch_file` returns with the
state untouched: no copy, no `lipo` invocation, nothing raised. -/
theorem copy_arch_file_non_file_noop (bad : List Path) (archs : List String)
    (top : Option Path) (st : MSt) (src dst : Path) (h : st.fs.isfile src = false) :
    copy_arch_file bad archs top st src dst = (st, none) := by
  simp [copy_arch_file, h]

/-- Witness for C10 at a concrete input: `src` is a directory. -/
theorem copy_arch_file_non_file_noop_witness :
    copy_arch_file [] ["armv7", "armv8"] (some ["p"]) ⟨⟨[], [["d"]], []⟩, []⟩ ["d"] ["x"]
      = (⟨⟨[], [["d"]], []⟩, []⟩, none) :=
  copy_arch_file_non_file_noop [] ["armv7", "armv8"] (some ["p"]) ⟨⟨[], [["d"]], []⟩, []⟩
    ["d"] ["x"] (by decide)

/-- C8: the Eligibility Gate is idempotent — whenever one application of
`patch_conanfile` returns normally, applying it again to the result is a
no-op returning the very same context with no error: hooks are installed
at most once, the second application being stopped by the `_package1`
marker (or by the same ineligibility conditions). -/
theorem patch_conanfile_idempotent (cf cf' : CFile)
    (h : patch_conanfile cf = .ok cf') : patch_conanfile cf' = .ok cf' := by
  unfold patch_conanfile at h ⊢
  split at h
  · cases h; simp_all
  · split at h
    · cases h; simp_all
    · split at h
      · cases h; simp_all
      · split at h
        · cases h
        · split at h
          · cases h; simp_all
          · split at h
            · cases h; simp_all
            · split at h
              · cases h; simp_all
              · cases h; simp_all

/-- A concrete eligible conanfile (supported OS, arch axis, two fat
architectures, nothing natively multi-arch). -/
def c8cf : CFile := { c6cf with settings_fat_arch := some (some "armv7;armv8") }

/-- `c8cf` after the full orchestration patch. -/
def c8cfPatched : CFile := { c8cf with package1 := true, patchedFull := true }

/-- Witness for C8: a concrete eligible context is fully patched by the
first application and the second application returns it unchanged. -/
theorem patch_conanfile_idempotent_witness :
    patch_conanfile c8cfPatched = .ok c8cfPatched :=
  patch_conanfile_idempotent c8cf c8cfPatched (by decide)

/-- C9 amended: for a file with an extension in neither known set, a
zero-length or short read (fewer than 4 bytes available) classifies as
plain, but a file that cannot be read raises the `OSError` out of the
classifier instead of returning plain. -/
theorem classifier_short_read_plain_unreadable_raises (fs : FS) (bad : List Path)
    (p : Path) (c : List Nat)
    (h1 : splitextExt (p.getLastD "") ∉ binary_exts)
    (h2 : splitextExt (p.getLastD "") ∉ regular_exts)
    (hc : fs.files.lookup p = some c) :
    (c.length < 4 → p ∉ bad → is_macho_binary fs bad p = .ok false)
    ∧ (p ∈ bad → is_macho_binary fs bad p = .error "read failed") := by
  constructor
  · intro hlen hnb
    have h4 : ¬(c.take 4 = magicThin) := by
      intro hEq
      have := congrArg List.length hEq
      simp [magicThin] at this
      omega
    have h5 : ¬(c.take 4 = magicFat) := by
      intro hEq
      have := congrArg List.length hEq
      simp [magicFat] at this
      omega
    have h6 : ¬(c.take 4 = magicAr) := by
      intro hEq
      have := congrArg List.length hEq
      simp [magicAr] at this
      omega
    simp only [is_macho_binary, if_neg h1, if_neg h2, hc, if_neg hnb,
      if_neg h4, if_neg h5, if_neg h6]
  · intro hb
    simp only [is_macho_binary, if_neg h1, if_neg h2, hc, if_pos hb]

/-- Witness for C9: a concrete readable 2-byte extensionless file
classifies as plain. -/
theorem classifier_short_read_plain_unreadable_raises_witness :
    is_macho_binary ⟨[(["blob2"], [1, 2])], [], []⟩ [] ["blob2"] = .ok false :=
  (classifier_short_read_plain_unreadable_raises ⟨[(["blob2"], [1, 2])], [], []⟩ []
    ["blob2"] [1, 2] (by decide) (by decide) rfl).1 (by decide) (by decide)

theorem multi_build_body_buildCalls (step : FS → FS) (c0 : Ctx) (bf pf : Path)
    (a : String) (w : World) :
    (multi_build_body step c0 bf pf a w).buildCalls
      = w.buildCalls ++ [⟨some a, some (bf ++ [arch_folder, a])⟩] := rfl

theorem multi_build_body_store_length (step : FS → FS) (c0 : Ctx) (bf pf : Path)
    (a : String) (w : World) :
    (multi_build_body step c0 bf pf a w).store.length = w.store.length + 1 := by
  simp [multi_build_body, conanfile_copy, World.storeSet]

theorem multi_build_body_store_getD (step : FS → FS) (c0 : Ctx) (bf pf : Path)
    (a : String) (w : World) (i : Nat) (hi : i < w.store.length) :
    (multi_build_body step c0 bf pf a w).store.getD i defaultSettings
      = w.store.getD i defaultSettings := by
  have hne : w.store.length ≠ i := (Nat.ne_of_lt hi).symm
  simp [multi_build_body, conanfile_copy, World.storeSet, List.getD_eq_getElem?_getD,
    List.getElem?_set_ne hne, List.getElem?_append_left hi]

theorem multi_build_loop_buildCalls (step : FS → FS) (c0 : Ctx) (bf pf : Path)
    (as : List String) (w : World) :
    (multi_build_loop step c0 bf pf as w).buildCalls
      = w.buildCalls ++ as.map (fun a => ⟨some a, some (bf ++ [arch_folder, a])⟩) := by
  induction as generalizing w with
  | nil => simp [multi_build_loop]
  | cons a t ih =>
    rw [multi_build_loop, ih, multi_build_body_buildCalls]
    simp

theorem multi_build_loop_store_getD (step : FS → FS) (c0 : Ctx) (bf pf : Path)
    (as : List String) (w : World) (i : Nat) (hi : i < w.store.length) :
    (multi_build_loop step c0 bf pf as w).store.getD i defaultSettings
      = w.store.getD i defaultSettings := by
  induction as generalizing w with
  | nil => rfl
  | cons a t ih =>
    rw [multi_build_loop]
    rw [ih (multi_build_body step c0 bf pf a w)
      (by rw [multi_build_body_store_length]; omega)]
    exact multi_build_body_store_getD step c0 bf pf a w i hi

/-- C2: for a context resolving to `N > 1` architectures, `multi_build`
succeeds and (a) invokes the original `_build1` exactly `N` times, once
per architecture in resolution order, each run `chdir`'d into that
architecture's scratch directory `build_folder/conan_archs/<arch>`; (b)
those scratch directories are pairwise distinct for distinct
architectures; and (c) the original context's settings cell is never
mutated (every clone mutates only its own `settings.copy()`). -/
theorem multi_build_per_arch (step : FS → FS) (w : World) (c : Ctx)
    (archs : List String)
    (href : c.settingsRef < w.store.length)
    (harch : get_archs ((w.store.getD c.settingsRef defaultSettings).fat_arch) = some archs)
    (hN : 1 < archs.length) (hnd : archs.Nodup) :
    multi_build step w c
      = .ok (multi_build_loop step c c.build_folder c.package_folder archs w)
    ∧ (multi_build_loop step c c.build_folder c.package_folder archs w).buildCalls
      = w.buildCalls
        ++ archs.map (fun a => ⟨some a, some (c.build_folder ++ [arch_folder, a])⟩)
    ∧ (multi_build_loop step c c.build_folder c.package_folder archs w).store.getD
        c.settingsRef defaultSettings
      = w.store.getD c.settingsRef defaultSettings
    ∧ (archs.map (fun a => c.build_folder ++ [arch_folder, a])).Nodup := by
  refine ⟨?_, multi_build_loop_buildCalls step c c.build_folder c.package_folder archs w,
    multi_build_loop_store_getD step c c.build_folder c.package_folder archs w
      c.settingsRef href, ?_⟩
  · unfold multi_build
    rw [harch]
    simp [hN]
  · refine hnd.map ?_
    intro a b hab
    have h2 := List.append_cancel_left hab
    simpa using h2

/-- Witness for C2 on the concrete two-architecture demo world. -/
theorem multi_build_per_arch_witness :
    multi_build id demoWorld demoCtx
      = .ok (multi_build_loop id demoCtx demoCtx.build_folder demoCtx.package_folder
          ["armv7", "armv8"] demoWorld)
    ∧ (multi_build_loop id demoCtx demoCtx.build_folder demoCtx.package_folder
          ["armv7", "armv8"] demoWorld).buildCalls
      = demoWorld.buildCalls ++ (["armv7", "armv8"].map
          (fun a => ⟨some a, some (demoCtx.build_folder ++ [arch_folder, a])⟩))
    ∧ (multi_build_loop id demoCtx demoCtx.build_folder demoCtx.package_folder
          ["armv7", "armv8"] demoWorld).store.getD demoCtx.settingsRef defaultSettings
      = demoWorld.store.getD demoCtx.settingsRef defaultSettings
    ∧ ((["armv7", "armv8"] : List String).map
          (fun a => demoCtx.build_folder ++ [arch_folder, a])).Nodup :=
  multi_build_per_arch id demoWorld demoCtx ["armv7", "armv8"]
    (by decide) (by decide) (by decide) (by decide)

theorem lookup_filter_not_prefix {β : Type} (l : List (Path × β)) (q p : Path)
    (hp : q.isPrefixOf p = true) :
    (l.filter (fun e => !(q.isPrefixOf e.1))).lookup p = none := by
  induction l with
  | nil => rfl
  | cons e t ih =>
    by_cases hk : q.isPrefixOf e.1 = true
    · simp [List.filter_cons, hk, ih]
    · have hpe : (p == e.1) = false := by
        refine beq_eq_false_iff_ne.mpr ?_
        intro hEq
        rw [← hEq] at hk
        exact hk hp
      simp [List.filter_cons, hk, List.lookup, hpe, ih]

theorem contains_filter_not_prefix (l : List Path) (q p : Path)
    (hp : q.isPrefixOf p = true) :
    (l.filter (fun r => !(q.isPrefixOf r))).contains p = false := by
  simp
  intro _
  exact List.isPrefixOf_iff_prefix.mp hp

theorem rmtree_pexists_prefix (fs : FS) (q p : Path) (hp : q.isPrefixOf p = true) :
    (fs.rmtree q).pexists p = false := by
  simp only [FS.rmtree, FS.pexists, FS.isfile, FS.isdir,
    lookup_filter_not_prefix fs.files q p hp, Option.isSome_none,
    contains_filter_not_prefix fs.dirs q p hp, Bool.or_false]

/-- C7 amended: after any successful multi-architecture `multi_package`
run, nothing remains anywhere below `package_folder/conan_archs` — the
package-root scratch tree is deleted whole by the final `rmtree`. -/
theorem package_scratch_removed_after_merge (bad : List Path) (fuel : Nat)
    (pstep : String → FS → FS) (w : World) (c : Ctx) (archs : List String) (w' : World)
    (harch : get_archs ((w.store.getD c.settingsRef defaultSettings).fat_arch) = some archs)
    (hN : 1 < archs.length)
    (hok : multi_package bad fuel pstep w c = .ok w')
    (p : Path) (hp : (c.package_folder ++ [arch_folder]).isPrefixOf p = true) :
    w'.fs.pexists p = false := by
  unfold multi_package at hok
  rw [harch] at hok
  simp only [if_pos hN] at hok
  cases hres : mergeArchTrees bad fuel c.package_folder archs archs
      ⟨(multi_package_loop pstep c c.build_folder c.package_folder archs w).fs,
       (multi_package_loop pstep c c.build_folder c.package_folder archs w).lipoCalls⟩ with
  | ok m =>
    rw [hres] at hok
    cases hok
    exact rmtree_pexists_prefix m.fs (c.package_folder ++ [arch_folder]) p hp
  | err m e =>
    rw [hres] at hok
    cases hok

/-- A package step collaborator that just creates the architecture's
(empty) package scratch directory, as `FileCopier` would. -/
def mk_pkg_scratch (pf : Path) (arch : String) (fs : FS) : FS :=
  { fs with dirs := fs.dirs ++ [pf ++ [arch_folder], pf ++ [arch_folder, arch]] }

/-- Witness for C7 amended: a concrete successful two-architecture package
step leaves nothing at `p/conan_archs`. -/
theorem package_scratch_removed_after_merge_witness :
    (okWorld (multi_package [] 8 (mk_pkg_scratch ["p"]) demoWorld demoCtx)).fs.pexists
      ["p", arch_folder] = false :=
  package_scratch_removed_after_merge [] 8 (mk_pkg_scratch ["p"]) demoWorld demoCtx
    ["armv7", "armv8"] (okWorld (multi_package [] 8 (mk_pkg_scratch ["p"]) demoWorld demoCtx))
    (by decide) (by decide) rfl ["p", arch_folder] (by decide)

/-- A world with a populated build root `b` and empty package root `p`. -/
def c7w0 : World :=
  { fs := ⟨[(["b", "Makefile"], [1])], [["b"], ["p"]], []⟩,
    store := [⟨"x86_64", some (some "armv7;armv8")⟩],
    buildCalls := [], packageCalls := [], lipoCalls := [] }

/-- C7 counterexample: running the build step and then a successful
package step leaves the per-architecture scratch directories under the
BUILD root (`b/conan_archs/armv7`, `b/conan_archs/armv8`) in place —
only the package root's `conan_archs` tree is removed (`multi_package`
calls `rmtree` on `package_folder/conan_archs` alone; nothing ever deletes
the build-root scratch, which `ignore_archs` deliberately skips when
re-staging).  This refutes "deleted under both the build root and the
package root". -/
theorem build_scratch_persists_after_package :
    ((multi_build id c7w0 demoCtx).bind
        (fun w1 => multi_package [] 8 (mk_pkg_scratch ["p"]) w1 demoCtx)).map
      (fun w2 => (w2.fs.isdir ["b", arch_folder, "armv7"],
                  w2.fs.isdir ["b", arch_folder, "armv8"],
                  w2.fs.pexists ["p", arch_folder])) = .ok (true, true, false) := by
  decide

end ConanMultiBuild
